import Mathlib

/-!
# Verification of the v7 analytics platform core

Shallow embedding of the analytics-engine statistics kernels, the engine
dispatcher and gRPC service, and the backend `mvp_stat` slice (composition
service, validators, deterministic data generators), together with theorems
settling the specification claims about them.

Modelling conventions:
* Rust `f64` is modelled by `F64`: a finite rational, `nan`, `inf` or
  `neginf`.  Arithmetic on finite values is exact rational arithmetic
  (IEEE rounding is not modelled); the special values propagate following
  IEEE-754 rules.  Negative zero is identified with zero.
* `anyhow::Result<T>` becomes `Except String T`; the backend's
  `StatResult<T>` becomes `Except StatError T`.
* Wall-clock quantities (`execution_time_ms`, timestamps) are modelled as
  the constant `0`: no claim concerns real time.
* `HashMap` becomes an association list; where Rust iterates a `HashMap`
  (whose order is unspecified) the model iterates in first-occurrence
  order of the keys. No claim depends on that order.
-/

/-- Model of Rust `f64`: finite values are exact rationals, plus the IEEE
special values.  Negative zero is not distinguished from zero. -/
inductive F64 where
  | finite (q : ℚ)
  | nan
  | inf
  | neginf
deriving DecidableEq

namespace F64

/-- IEEE addition on the model (finite arithmetic exact). -/
def add : F64 → F64 → F64
  | finite p, finite q => finite (p + q)
  | nan, _ => nan
  | _, nan => nan
  | inf, neginf => nan
  | neginf, inf => nan
  | inf, _ => inf
  | _, inf => inf
  | neginf, _ => neginf
  | _, neginf => neginf

/-- IEEE negation. -/
def neg : F64 → F64
  | finite p => finite (-p)
  | nan => nan
  | inf => neginf
  | neginf => inf

/-- IEEE subtraction. -/
def sub (a b : F64) : F64 := add a (neg b)

/-- IEEE multiplication (finite arithmetic exact; `inf * 0 = nan`). -/
def mul : F64 → F64 → F64
  | finite p, finite q => finite (p * q)
  | nan, _ => nan
  | _, nan => nan
  | inf, inf => inf
  | inf, neginf => neginf
  | neginf, inf => neginf
  | neginf, neginf => inf
  | inf, finite q => if q = 0 then nan else if 0 < q then inf else neginf
  | finite p, inf => if p = 0 then nan else if 0 < p then inf else neginf
  | neginf, finite q => if q = 0 then nan else if 0 < q then neginf else inf
  | finite p, neginf => if p = 0 then nan else if 0 < p then neginf else inf

/-- IEEE division (finite arithmetic exact; `x / 0` with `x ≠ 0` gives a
signed infinity, `0 / 0` gives `nan`). -/
def div : F64 → F64 → F64
  | finite p, finite q =>
      if q = 0 then (if p = 0 then nan else if 0 < p then inf else neginf)
      else finite (p / q)
  | nan, _ => nan
  | _, nan => nan
  | inf, inf => nan
  | inf, neginf => nan
  | neginf, inf => nan
  | neginf, neginf => nan
  | inf, finite q => if 0 ≤ q then inf else neginf
  | neginf, finite q => if 0 ≤ q then neginf else inf
  | finite _, inf => finite 0
  | finite _, neginf => finite 0

/-- IEEE equality test (`nan` is equal to nothing, itself included).
Models Rust's `==` on `f64`. -/
def beq : F64 → F64 → Bool
  | finite p, finite q => p == q
  | inf, inf => true
  | neginf, neginf => true
  | _, _ => false

/-- IEEE strict less-than (any comparison involving `nan` is `false`).
Models Rust's `<` on `f64`. -/
def blt : F64 → F64 → Bool
  | finite p, finite q => p < q
  | finite _, inf => true
  | neginf, finite _ => true
  | neginf, inf => true
  | _, _ => false

/-- IEEE less-or-equal (any comparison involving `nan` is `false`).
Models Rust's `<=` on `f64`. -/
def ble : F64 → F64 → Bool
  | finite p, finite q => p ≤ q
  | finite _, inf => true
  | neginf, finite _ => true
  | neginf, inf => true
  | inf, inf => true
  | neginf, neginf => true
  | _, _ => false

/-- Total order used to model `partial_cmp(..).unwrap()` in the kernels'
sorts and min/max folds.  On data without `nan` it agrees with the IEEE
order; on `nan` the Rust code would panic, which no claim exercises, so the
model extends the order totally (`nan` sorts last). -/
def leTotal : F64 → F64 → Bool
  | nan, _ => false
  | _, nan => true
  | a, b => ble a b

/-- A floor-style rational square root used to model `f64::sqrt` on finite
nonnegative inputs.  The exact value of `sqrt` on positive inputs is
immaterial to every claim; the claims rely only on `sqrt 0 = 0` and on the
special-value behaviour. -/
def ratSqrt (q : ℚ) : ℚ :=
  (Nat.sqrt (q.num.toNat * q.den) : ℚ) / (q.den : ℚ)

/-- Model of `f64::sqrt`: `nan` for negative or `nan` inputs, `inf` for
`inf`, and the rational model `ratSqrt` on finite nonnegative inputs. -/
def sqrt : F64 → F64
  | finite q => if q < 0 then nan else finite (ratSqrt q)
  | nan => nan
  | inf => inf
  | neginf => nan

/-- Model of Rust's `powi` (repeated multiplication). -/
def powi (x : F64) : Nat → F64
  | 0 => finite 1
  | n + 1 => mul (powi x n) x

/-- Model of `iter().sum::<f64>()`: left fold of IEEE addition over `0.0`. -/
def sum (l : List F64) : F64 := l.foldl add (finite 0)

/-- Model of Rust's `f64::round` (half away from zero) followed by an
`as i64` cast (saturating; `nan` casts to 0). Used by the `mode` kernel. -/
def roundToInt : F64 → Int
  | finite q => if 0 ≤ q then (q + 1/2).floor else -((-q + 1/2).floor)
  | nan => 0
  | inf => (2 : Int) ^ 63 - 1
  | neginf => -((2 : Int) ^ 63)

/-- `is_nan`. -/
def is_nan : F64 → Bool
  | nan => true
  | _ => false

/-- `is_infinite`. -/
def is_infinite : F64 → Bool
  | inf => true
  | neginf => true
  | _ => false

end F64

/-- Model of `serde_json::Value` restricted to the shapes the engine
produces.  Numbers carry the `F64` model directly: the textual encoding
performed by `serde_json` is not modelled. -/
inductive Json where
  | null
  | bool (b : Bool)
  | num (x : F64)
  | int (n : Int)
  | str (s : String)
  | arr (xs : List Json)
  | obj (fields : List (String × Json))

namespace Json

/-- Model of `serde_json::Value::as_f64` (numeric payloads only). -/
def as_f64 : Json → Option F64
  | num x => some x
  | int n => some (F64.finite (n : ℚ))
  | _ => none

end Json

/-- Association-list lookup modelling `HashMap::get`. -/
def alistGet? {α : Type} (l : List (String × α)) (k : String) : Option α :=
  (l.find? (fun p => p.1 == k)).map (·.2)

/-- Stable insertion used to model `Vec::sort_by(partial_cmp..unwrap)`.
Rust's sort is a stable merge sort; on totally ordered data the sorted
result is unique, so any stable sort models it. -/
def insertLe (le : F64 → F64 → Bool) (x : F64) : List F64 → List F64
  | [] => [x]
  | y :: ys => if le x y then x :: y :: ys else y :: insertLe le x ys

/-- `sorted.sort_by(|a, b| a.partial_cmp(b).unwrap())` on an owned copy. -/
def sortData (data : List F64) : List F64 :=
  data.foldr (insertLe F64.leTotal) []

/-! ## Analytics Engine: internal API types
(src/analytics-engine/src/api/types.rs) -/

/-- `AnalysisOptions` (internal request options). -/
structure AnalysisOptions where
  prefer_rust : Bool
  allow_python : Bool
  timeout_ms : Int
  include_metadata : Bool
deriving DecidableEq

/-- `Default for AnalysisOptions` (types.rs lines 24-33): rust preferred,
python allowed, 30 s timeout, metadata on. -/
def AnalysisOptions.default : AnalysisOptions :=
  { prefer_rust := true, allow_python := true, timeout_ms := 30000,
    include_metadata := true }

/-- `AnalysisRequest` (internal envelope consumed by the dispatcher). -/
structure AnalysisRequest where
  request_id : String
  algorithm : String
  data : List F64
  params : List (String × String)
  options : AnalysisOptions

/-- `ExecutionMetadata`.  `execution_time_ms` is wall clock in the source
and is modelled as 0. -/
structure ExecutionMetadata where
  implementation : String
  execution_time_ms : Nat
  algorithm : String
  data_size : Nat
  stats : List (String × String)

/-- `AnalysisResult`. -/
structure AnalysisResult where
  result : Json
  metadata : ExecutionMetadata

/-- Build-time constant `env!("CARGO_PKG_VERSION")`; the concrete version
string is fixed at compile time and not present under src, so the model
uses a placeholder.  No claim depends on it. -/
def CARGO_PKG_VERSION : String := "0.1.0"

/-! ## Analytics Engine: native statistics kernels
(src/analytics-engine/src/core/stats.rs) -/

/-- stats.rs `calculate_mean`. -/
def calculate_mean (data : List F64) : Except String F64 :=
  if data.isEmpty then .error "Empty data"
  else .ok (F64.div (F64.sum data) (F64.finite (data.length : ℚ)))

/-- stats.rs `calculate_median`. -/
def calculate_median (data : List F64) : Except String F64 :=
  if data.isEmpty then .error "Empty data"
  else
    let sorted := sortData data
    let n := sorted.length
    if n % 2 == 0 then
      .ok (F64.div (F64.add (sorted.getD (n / 2 - 1) F64.nan)
                            (sorted.getD (n / 2) F64.nan))
                   (F64.finite 2))
    else
      .ok (sorted.getD (n / 2) F64.nan)

/-- stats.rs `calculate_variance` (sample variance, denominator `n-1`). -/
def calculate_variance (data : List F64) : Except String F64 :=
  if data.length < 2 then .error "Need at least 2 data points for variance"
  else do
    let mean ← calculate_mean data
    let sum_sq_diff := F64.sum (data.map (fun x => F64.powi (F64.sub x mean) 2))
    .ok (F64.div sum_sq_diff (F64.finite ((data.length - 1 : Nat) : ℚ)))

/-- stats.rs `calculate_std` (square root of the sample variance). -/
def calculate_std (data : List F64) : Except String F64 := do
  let variance ← calculate_variance data
  .ok (F64.sqrt variance)

/-- stats.rs `calculate_min` (`min_by` with `partial_cmp(..).unwrap()`,
which panics on `nan`; modelled with the total extension `leTotal`). -/
def calculate_min (data : List F64) : Except String F64 :=
  match data with
  | [] => .error "Empty data"
  | x :: xs => .ok (xs.foldl (fun a b => if F64.leTotal a b then a else b) x)

/-- stats.rs `calculate_max`. -/
def calculate_max (data : List F64) : Except String F64 :=
  match data with
  | [] => .error "Empty data"
  | x :: xs => .ok (xs.foldl (fun a b => if F64.leTotal b a then a else b) x)

/-- stats.rs `calculate_range` (`max - min`). -/
def calculate_range (data : List F64) : Except String F64 := do
  let min ← calculate_min data
  let max ← calculate_max data
  .ok (F64.sub max min)

/-- Model of `f64::floor()` followed by `as usize` (saturating: negative
and `nan` inputs cast to 0).  The kernels only reach this with a finite
nonnegative index. -/
def F64.floorToNat : F64 → Nat
  | F64.finite q => ⌊q⌋.toNat
  | _ => 0

/-- Model of `f64::ceil()` followed by `as usize`. -/
def F64.ceilToNat : F64 → Nat
  | F64.finite q => ⌈q⌉.toNat
  | _ => 0

/-- stats.rs `calculate_percentile`: linear interpolation between the two
nearest order statistics of the sorted copy. -/
def calculate_percentile (data : List F64) (percentile : F64) : Except String F64 :=
  if data.isEmpty then .error "Empty data"
  else if !(F64.ble (F64.finite 0) percentile && F64.ble percentile (F64.finite 100)) then
    .error "Percentile must be between 0 and 100"
  else
    let sorted := sortData data
    let index := F64.mul (F64.div percentile (F64.finite 100))
                         (F64.finite ((sorted.length - 1 : Nat) : ℚ))
    let lower := F64.floorToNat index
    let upper := F64.ceilToNat index
    if lower == upper then .ok (sorted.getD lower F64.nan)
    else
      let weight := F64.sub index (F64.finite (lower : ℚ))
      .ok (F64.add (F64.mul (sorted.getD lower F64.nan)
                            (F64.sub (F64.finite 1) weight))
                   (F64.mul (sorted.getD upper F64.nan) weight))

/-- The six-decimal bucketing key of the `mode` kernel:
`(value * 1000000.0).round() as i64`. -/
def modeKey (v : F64) : Int :=
  F64.roundToInt (F64.mul v (F64.finite 1000000))

/-- stats.rs `calculate_mode`: buckets values by `modeKey`, reports every
bucket tied at maximal frequency.  `frequency_map` maps a key to the last
value inserted with it; the `HashMap` iteration order is unspecified in
Rust and modelled as first-occurrence order of the keys. -/
def calculate_mode (data : List F64) : Except String Json :=
  if data.isEmpty then .error "Empty data"
  else
    let keys := data.map modeKey
    let distinctKeys := keys.eraseDups
    let countOf := fun (k : Int) => (keys.filter (fun k2 => k2 == k)).length
    let valueOf := fun (k : Int) =>
      ((data.filter (fun v => modeKey v == k)).getLastD F64.nan)
    let max_count := (distinctKeys.map countOf).foldl Nat.max 0
    if max_count == 0 then
      .ok (Json.obj [("modes", Json.arr []), ("count", Json.int 0),
        ("frequency", Json.int 0), ("is_multimodal", Json.bool false)])
    else
      let modes := (distinctKeys.filter (fun k => countOf k == max_count)).map valueOf
      .ok (Json.obj [("modes", Json.arr (modes.map Json.num)),
        ("count", Json.int modes.length),
        ("frequency", Json.int max_count),
        ("is_multimodal", Json.bool (decide (modes.length > 1))),
        ("data_size", Json.int data.length)])

/-- stats.rs `calculate_skewness`: bias-corrected sample skewness with a
zero-variance guard returning `Ok(0.0)`. -/
def calculate_skewness (data : List F64) : Except String F64 :=
  if data.length < 3 then .error "Need at least 3 data points for skewness"
  else do
    let mean ← calculate_mean data
    let std_dev ← calculate_std data
    if F64.beq std_dev (F64.finite 0) then
      .ok (F64.finite 0)
    else
      let n : ℚ := (data.length : ℚ)
      let sum_cubed_deviations :=
        F64.sum (data.map (fun x => F64.powi (F64.div (F64.sub x mean) std_dev) 3))
      .ok (F64.mul
            (F64.div (F64.finite n)
              (F64.mul (F64.finite (n - 1)) (F64.finite (n - 2))))
            sum_cubed_deviations)

/-- stats.rs `calculate_kurtosis`: bias-corrected excess kurtosis with a
zero-variance guard returning `Ok(0.0)`. -/
def calculate_kurtosis (data : List F64) : Except String F64 :=
  if data.length < 4 then .error "Need at least 4 data points for kurtosis"
  else do
    let mean ← calculate_mean data
    let std_dev ← calculate_std data
    if F64.beq std_dev (F64.finite 0) then
      .ok (F64.finite 0)
    else
      let n : ℚ := (data.length : ℚ)
      let sum_fourth_deviations :=
        F64.sum (data.map (fun x => F64.powi (F64.div (F64.sub x mean) std_dev) 4))
      .ok (F64.sub
            (F64.mul
              (F64.div (F64.mul (F64.finite n) (F64.finite (n + 1)))
                (F64.mul (F64.mul (F64.finite (n - 1)) (F64.finite (n - 2)))
                  (F64.finite (n - 3))))
              sum_fourth_deviations)
            (F64.div (F64.mul (F64.finite 3) (F64.powi (F64.finite (n - 1)) 2))
              (F64.mul (F64.finite (n - 2)) (F64.finite (n - 3)))))

/-- stats.rs `calculate_iqr` (`q3 - q1`). -/
def calculate_iqr (data : List F64) : Except String F64 :=
  if data.isEmpty then .error "Empty data"
  else do
    let q1 ← calculate_percentile data (F64.finite 25)
    let q3 ← calculate_percentile data (F64.finite 75)
    .ok (F64.sub q3 q1)

/-- stats.rs `calculate_count`: always succeeds with `data.len()`. -/
def calculate_count (data : List F64) : Except String Nat :=
  .ok data.length

/-- stats.rs `calculate_autocorrelation` (lag-1 autocorrelation; `0` when
the denominator is zero). -/
def calculate_autocorrelation (data : List F64) : Except String F64 :=
  if data.length < 2 then .error "Need at least 2 data points for autocorrelation"
  else do
    let mean ← calculate_mean data
    let n := data.length
    let numerator := F64.sum ((List.range (n - 1)).map (fun i =>
      F64.mul (F64.sub (data.getD i F64.nan) mean)
              (F64.sub (data.getD (i + 1) F64.nan) mean)))
    let denominator := F64.sum (data.map (fun x => F64.powi (F64.sub x mean) 2))
    if F64.beq denominator (F64.finite 0) then .ok (F64.finite 0)
    else .ok (F64.div numerator denominator)

/-- stats.rs `calculate_summary_stats`: JSON object with all summary
fields; any kernel failure propagates. -/
def calculate_summary_stats (data : List F64) : Except String Json := do
  let mean ← calculate_mean data
  let median ← calculate_median data
  let std ← calculate_std data
  let variance ← calculate_variance data
  let min ← calculate_min data
  let max ← calculate_max data
  let range ← calculate_range data
  let q25 ← calculate_percentile data (F64.finite 25)
  let q75 ← calculate_percentile data (F64.finite 75)
  let autocorr ← calculate_autocorrelation data
  .ok (Json.obj [("count", Json.int data.length), ("mean", Json.num mean),
    ("median", Json.num median), ("std", Json.num std),
    ("variance", Json.num variance), ("min", Json.num min),
    ("max", Json.num max), ("range", Json.num range),
    ("q25", Json.num q25), ("q75", Json.num q75),
    ("autocorr", Json.num autocorr)])

/-- Model of Rust's `str::parse::<f64>()` restricted to plain decimal
literal forms (optional sign, digits, optional fractional part).  The
engine uses it only for the `percentile` parameter; no claim depends on
other accepted forms (exponents, `inf`, `NaN`). -/
def parseF64? (s : String) : Option ℚ :=
  let core := fun (t : String) =>
    match t.splitOn "." with
    | [w] => (w.toNat?).map (fun n => (n : ℚ))
    | [w, f] =>
      match w.toNat?, f.toNat? with
      | some wn, some fn => some ((wn : ℚ) + (fn : ℚ) / ((10 : ℚ) ^ f.length))
      | _, _ => none
    | _ => none
  if s.startsWith "-" then (core (s.drop 1)).map Neg.neg
  else core s

/-- stats.rs `analyze_rust` (lines 7-56): rejects empty data up front,
dispatches on the algorithm name, and wraps the value with execution
metadata. -/
def analyze_rust (request : AnalysisRequest) : Except String AnalysisResult :=
  if request.data.isEmpty then .error "Empty data"
  else do
    let result_value : Json ←
      match request.algorithm with
      | "mean" => (calculate_mean request.data).map Json.num
      | "median" => (calculate_median request.data).map Json.num
      | "std" => (calculate_std request.data).map Json.num
      | "variance" => (calculate_variance request.data).map Json.num
      | "min" => (calculate_min request.data).map Json.num
      | "max" => (calculate_max request.data).map Json.num
      | "range" => (calculate_range request.data).map Json.num
      | "correlation" => (calculate_autocorrelation request.data).map Json.num
      | "percentile" =>
        let p := (((alistGet? request.params "percentile").bind parseF64?).map
          F64.finite).getD (F64.finite 50)
        (calculate_percentile request.data p).map Json.num
      | "mode" => calculate_mode request.data
      | "skewness" => (calculate_skewness request.data).map Json.num
      | "kurtosis" => (calculate_kurtosis request.data).map Json.num
      | "q1" => (calculate_percentile request.data (F64.finite 25)).map Json.num
      | "q3" => (calculate_percentile request.data (F64.finite 75)).map Json.num
      | "iqr" => (calculate_iqr request.data).map Json.num
      | "count" => (calculate_count request.data).map Json.int
      | "summary" => calculate_summary_stats request.data
      | _ => .error ("Algorithm '" ++ request.algorithm ++ "' not implemented in Rust")
    .ok { result := result_value,
          metadata := {
            implementation := "rust",
            execution_time_ms := 0,
            algorithm := request.algorithm,
            data_size := request.data.length,
            stats := [("rust_version", CARGO_PKG_VERSION),
                      ("data_points", toString request.data.length)] } }

/-! ## Analytics Engine: dispatcher
(src/analytics-engine/src/core/dispatcher.rs) -/

/-- The failure message the dispatcher returns when no candidate
succeeded (dispatcher.rs lines 39-44). -/
def noImplementationMsg (algorithm : String) (prefer_rust allow_python : Bool) : String :=
  "No implementation available for algorithm '" ++ algorithm ++
    "'. Rust preferred: " ++ toString prefer_rust ++
    ", Python allowed: " ++ toString allow_python

/-- The type of the optional python bridge: `none` models a build without
the `python-bridge` feature; `some f` models the feature with
`analyze_python = f` (python_bridge/dispatcher.rs is a thin wrapper over
an embedded interpreter and is modelled as an arbitrary function). -/
def PythonImpl : Type := Option (AnalysisRequest → Except String AnalysisResult)

namespace Dispatcher

/-- dispatcher.rs `analyze` (lines 7-45): try the rust kernel when
`prefer_rust`, then the python bridge when compiled in and
`allow_python`, else fail with the generic message.  Errors of the
individual candidates are dropped. -/
def analyze (pythonImpl : PythonImpl) (request : AnalysisRequest) :
    Except String AnalysisResult :=
  let rustOutcome : Option AnalysisResult :=
    if request.options.prefer_rust then
      match analyze_rust request with
      | .ok result => some result
      | .error _ => none
    else none
  match rustOutcome with
  | some result => .ok result
  | none =>
    let pythonOutcome : Option AnalysisResult :=
      match pythonImpl with
      | some analyze_python =>
        if request.options.allow_python then
          match analyze_python request with
          | .ok result => some result
          | .error _ => none
        else none
      | none => none
    match pythonOutcome with
    | some result => .ok result
    | none => .error (noImplementationMsg request.algorithm
        request.options.prefer_rust request.options.allow_python)

/-- `analyze` instrumented with the number of candidate executions (the
calls into `analyze_rust` and the bridge, which the source reports through
its per-attempt tracing records). -/
def analyzeTrace (pythonImpl : PythonImpl) (request : AnalysisRequest) :
    Except String AnalysisResult × Nat :=
  let rustAttempts := if request.options.prefer_rust then 1 else 0
  let rustOutcome : Option AnalysisResult :=
    if request.options.prefer_rust then
      match analyze_rust request with
      | .ok result => some result
      | .error _ => none
    else none
  match rustOutcome with
  | some result => (.ok result, rustAttempts)
  | none =>
    let pythonAttempts :=
      match pythonImpl with
      | some _ => if request.options.allow_python then 1 else 0
      | none => 0
    let pythonOutcome : Option AnalysisResult :=
      match pythonImpl with
      | some analyze_python =>
        if request.options.allow_python then
          match analyze_python request with
          | .ok result => some result
          | .error _ => none
        else none
      | none => none
    match pythonOutcome with
    | some result => (.ok result, rustAttempts + pythonAttempts)
    | none => (.error (noImplementationMsg request.algorithm
        request.options.prefer_rust request.options.allow_python),
        rustAttempts + pythonAttempts)

end Dispatcher

/-- `AlgorithmInfo` (api/types.rs lines 62-69). -/
structure AlgorithmInfo where
  name : String
  description : String
  implementations : List String
  required_params : List String
  optional_params : List String
deriving DecidableEq

/-- dispatcher.rs `get_supported_algorithms` (lines 48-130): the static
rust catalog; a python bridge build appends the bridge's own descriptors,
modelled by the `pythonAlgorithms` parameter (empty for `none`). -/
def get_supported_algorithms (pythonAlgorithms : Option (List AlgorithmInfo)) :
    List AlgorithmInfo :=
  [{ name := "mean", description := "Calculate arithmetic mean",
     implementations := ["rust"], required_params := [], optional_params := [] },
   { name := "median", description := "Calculate median value",
     implementations := ["rust"], required_params := [], optional_params := [] },
   { name := "std", description := "Calculate standard deviation",
     implementations := ["rust"], required_params := [], optional_params := [] },
   { name := "variance", description := "Calculate variance",
     implementations := ["rust"], required_params := [], optional_params := [] },
   { name := "min", description := "Find minimum value",
     implementations := ["rust"], required_params := [], optional_params := [] },
   { name := "max", description := "Find maximum value",
     implementations := ["rust"], required_params := [], optional_params := [] },
   { name := "range", description := "Calculate range (max - min)",
     implementations := ["rust"], required_params := [], optional_params := [] },
   { name := "percentile", description := "Calculate percentile",
     implementations := ["rust"], required_params := [],
     optional_params := ["percentile"] },
   { name := "correlation", description := "Calculate autocorrelation",
     implementations := ["rust"], required_params := [], optional_params := [] },
   { name := "summary", description := "Calculate comprehensive statistics summary",
     implementations := ["rust"], required_params := [], optional_params := [] }]
  ++ (pythonAlgorithms.getD [])

/-- dispatcher.rs `is_algorithm_supported`. -/
def is_algorithm_supported (pythonAlgorithms : Option (List AlgorithmInfo))
    (algorithm implementation : String) : Bool :=
  (get_supported_algorithms pythonAlgorithms).any
    (fun algo => algo.name == algorithm &&
      algo.implementations.contains implementation)

/-! ## Analytics Engine: gRPC service
(src/analytics-engine/src/api/grpc_service.rs) -/

/-- The prost-generated `AnalysisOptions` message. -/
structure GrpcAnalysisOptions where
  prefer_rust : Bool
  allow_python : Bool
  timeout_ms : Int
  include_metadata : Bool
deriving DecidableEq

/-- prost's derived `Default` for the generated message: every field is
zero/false.  Note this differs from the internal
`AnalysisOptions.default` (true/true/30000/true); `unwrap_or_default()`
in the conversion uses this one. -/
def GrpcAnalysisOptions.protoDefault : GrpcAnalysisOptions :=
  { prefer_rust := false, allow_python := false, timeout_ms := 0,
    include_metadata := false }

/-- The generated `AnalysisRequest` message. -/
structure GrpcAnalysisRequest where
  request_id : String
  algorithm : String
  data : List F64
  params : List (String × String)
  options : Option GrpcAnalysisOptions

/-- The generated `ExecutionMetadata` message. -/
structure GrpcExecutionMetadata where
  implementation : String
  execution_time_ms : Int
  algorithm : String
  data_size : Int
  stats : List (String × String)

/-- The generated `AnalysisResponse` message.  `result_json` is a string
field in the source (`serde_json::to_string` of the result); the textual
encoding is not modelled, so the field carries the JSON value itself and
`none` models the empty string `String::new()`. -/
structure GrpcAnalysisResponse where
  request_id : String
  success : Bool
  error_message : String
  result_json : Option Json
  metadata : Option GrpcExecutionMetadata

/-- The generated `BatchAnalysisRequest` message. -/
structure GrpcBatchAnalysisRequest where
  batch_id : String
  requests : List GrpcAnalysisRequest

/-- grpc_service.rs `convert_grpc_to_internal_request` (lines 189-206).
It returns `Result<_, Status>` in the source but has no failing path;
the `Except` shape is kept because `batch_analyze` branches on it. -/
def convert_grpc_to_internal_request (grpc_req : GrpcAnalysisRequest) :
    Except String AnalysisRequest :=
  let options := grpc_req.options.getD GrpcAnalysisOptions.protoDefault
  .ok { request_id := grpc_req.request_id,
        algorithm := grpc_req.algorithm,
        data := grpc_req.data,
        params := grpc_req.params,
        options := { prefer_rust := options.prefer_rust,
                     allow_python := options.allow_python,
                     timeout_ms := options.timeout_ms,
                     include_metadata := options.include_metadata } }

/-- grpc_service.rs `convert_internal_to_grpc_response` (lines 208-228).
The source sets `request_id` to the empty string with a comment saying
the caller will fill it in. -/
def convert_internal_to_grpc_response (result : AnalysisResult)
    (success : Bool) (error_message : Option String) : GrpcAnalysisResponse :=
  { request_id := "",
    success := success,
    error_message := error_message.getD "",
    result_json := some result.result,
    metadata := some {
      implementation := result.metadata.implementation,
      execution_time_ms := (result.metadata.execution_time_ms : Int),
      algorithm := result.metadata.algorithm,
      data_size := (result.metadata.data_size : Int),
      stats := result.metadata.stats } }

namespace AnalyticsService

/-- grpc_service.rs `AnalyticsService::analyze` (lines 43-76): convert,
dispatch, and wrap the outcome; algorithm failures become
`success = false` responses, never a `Status` error.  The outer `Except`
mirrors `Result<_, Status>` (no path produces a `Status` here). -/
def analyze (pythonImpl : PythonImpl) (grpc_request : GrpcAnalysisRequest) :
    Except String GrpcAnalysisResponse := do
  let internal_request ← convert_grpc_to_internal_request grpc_request
  match Dispatcher.analyze pythonImpl internal_request with
  | .ok result => .ok (convert_internal_to_grpc_response result true none)
  | .error e => .ok {
      request_id := "",
      success := false,
      error_message := e,
      result_json := none,
      metadata := none }

/-- The body of one iteration of the `batch_analyze` stream loop
(grpc_service.rs lines 93-124): conversion failure and dispatch failure
both yield a `success = false` item carrying the sub-request's id. -/
def batchItem (pythonImpl : PythonImpl) (grpc_req : GrpcAnalysisRequest) :
    GrpcAnalysisResponse :=
  let request_id := grpc_req.request_id
  match convert_grpc_to_internal_request grpc_req with
  | .ok internal_request =>
    match Dispatcher.analyze pythonImpl internal_request with
    | .ok result => convert_internal_to_grpc_response result true none
    | .error e =>
      { request_id := request_id,
        success := false,
        error_message := e,
        result_json := none,
        metadata := none }
  | .error e =>
    { request_id := request_id,
      success := false,
      error_message := "Request conversion error: " ++ e,
      result_json := none,
      metadata := none }

/-- The `batch_analyze` stream loop: one yielded response per sub-request,
in input order. -/
def batchLoop (pythonImpl : PythonImpl) :
    List GrpcAnalysisRequest → List GrpcAnalysisResponse
  | [] => []
  | grpc_req :: rest => batchItem pythonImpl grpc_req :: batchLoop pythonImpl rest

/-- grpc_service.rs `AnalyticsService::batch_analyze` (lines 80-128): the
emitted stream, as the list of responses in emission order. -/
def batch_analyze (pythonImpl : PythonImpl)
    (batch_request : GrpcBatchAnalysisRequest) : List GrpcAnalysisResponse :=
  batchLoop pythonImpl batch_request.requests

end AnalyticsService

/-! ## Backend `mvp_stat` slice: types and validators
(src/backend/src/slices/mvp_stat/types.rs) -/

/-- `StatError` (types.rs lines 181-206). -/
inductive StatError where
  | Validation (message : String)
  | EmptyData
  | InvalidDistribution (distribution : String)
  | InvalidPercentile (percentile : F64)
  | AnalyticsEngine (message : String)
  | Grpc (message : String)
  | Calculation (message : String)
  | Internal (message : String)
deriving DecidableEq

/-- `GenerateRandomDataRequest` (types.rs lines 6-18).  The five optional
fields are the whole public surface: there are no separate
mean/std-dev/lambda fields. -/
structure GenerateRandomDataRequest where
  count : Option Nat
  seed : Option Nat
  min_value : Option F64
  max_value : Option F64
  distribution : Option String

/-- `CalculateStatisticsRequest` (types.rs lines 36-48). -/
structure CalculateStatisticsRequest where
  data : List F64
  statistics : List String
  percentiles : Option (List F64)
  use_analytics_engine : Option Bool
  prefer_rust : Option Bool

/-- types.rs `GenerateRandomDataRequest::validate` (lines 240-266):
count in 1..=1,000,000; `min_value < max_value` whenever both are given
(for every distribution); distribution, when given, one of the three
names. -/
def GenerateRandomDataRequest.validate (req : GenerateRandomDataRequest) :
    Except StatError Unit :=
  let count := req.count.getD 10000
  if count == 0 || decide (count > 1000000) then
    .error (StatError.Validation "数据量必须在1到1,000,000之间")
  else if (match req.min_value, req.max_value with
           | some min, some max => F64.ble max min
           | _, _ => false) then
    .error (StatError.Validation "最小值必须小于最大值")
  else
    match req.distribution with
    | some dist =>
      if dist == "normal" || dist == "uniform" || dist == "exponential" then
        .ok ()
      else .error (StatError.InvalidDistribution dist)
    | none => .ok ()

/-- types.rs `CalculateStatisticsRequest::validate` (lines 270-290):
non-empty data, at most 10,000,000 points, percentile entries in
`[0,100]`.  It performs no NaN/infinity check on `data`. -/
def CalculateStatisticsRequest.validate (req : CalculateStatisticsRequest) :
    Except StatError Unit :=
  if req.data.isEmpty then .error StatError.EmptyData
  else if decide (req.data.length > 10000000) then
    .error (StatError.Validation "数据量过大，最多支持10,000,000个数据点")
  else
    match req.percentiles with
    | some percentiles =>
      match percentiles.find?
          (fun p => !(F64.ble (F64.finite 0) p && F64.ble p (F64.finite 100))) with
      | some p => .error (StatError.InvalidPercentile p)
      | none => .ok ()
    | none => .ok ()

/-- types.rs `CalculateStatisticsRequest::get_default_statistics`. -/
def CalculateStatisticsRequest.get_default_statistics : List String :=
  ["mean", "median", "mode", "std", "variance", "min", "max", "range",
   "skewness", "kurtosis", "q1", "q3", "iqr"]

/-- The index-tracking loop of functions.rs `validate_data_quality`. -/
def validateQualityLoop : List F64 → Nat → Except StatError Unit
  | [], _ => .ok ()
  | value :: rest, i =>
    if value.is_nan then
      .error (StatError.Validation ("数据包含NaN值，位置: " ++ toString i))
    else if value.is_infinite then
      .error (StatError.Validation ("数据包含无限值，位置: " ++ toString i))
    else validateQualityLoop rest (i + 1)

/-- functions.rs `validate_data_quality` (lines 155-175): rejects empty
data and any NaN/infinite element.  It is `pub(crate)` and — apart from
its own unit tests — never called on any request path. -/
def validate_data_quality (data : List F64) : Except StatError Unit :=
  if data.isEmpty then .error StatError.EmptyData
  else validateQualityLoop data 0

/-- `SeedGenerator` (types.rs lines 212-230).  Its `new` reads the wall
clock; the current time is a parameter of the model. -/
structure SeedGenerator where
  counter : Nat
  base_time : Nat

/-- `SeedGenerator::new` with the wall clock passed in. -/
def SeedGenerator.new (now_millis : Nat) : SeedGenerator :=
  { counter := 0, base_time := now_millis % 2 ^ 64 }

/-- `SeedGenerator::next_seed` (wrapping `u64` addition). -/
def SeedGenerator.next_seed (g : SeedGenerator) : Nat × SeedGenerator :=
  let counter := g.counter + 1
  ((g.base_time + counter) % 2 ^ 64, { g with counter := counter })

/-- `PerformanceInfo` (types.rs lines 168-178); `execution_time_ms` is
wall clock, modelled as 0. -/
structure PerformanceInfo where
  execution_time_ms : Nat
  memory_usage_bytes : Option Nat
  implementation : String
  metrics : List (String × String)

/-- `GenerateRandomDataResponse` (types.rs lines 21-33); the `generated_at`
wall-clock timestamp is not modelled. -/
structure GenerateRandomDataResponse where
  data : List F64
  count : Nat
  seed : Nat
  performance : PerformanceInfo

/-! ## Backend `mvp_stat` slice: deterministic data generator
(src/backend/src/slices/mvp_stat/service.rs lines 295-380) -/

/-- Modelled: the state of `rand::rngs::StdRng` (a ChaCha12 generator in
the rand crate).  The spec fixes only that the stream is a deterministic
pure function of the seed (bit-identity across platforms is explicitly
not required), so the model uses a simple congruential stream.  Every
claim about the generators concerns determinism and parameter plumbing,
not the concrete stream. -/
structure RngState where
  s : Nat

/-- Modelled: `StdRng::seed_from_u64` — a pure function of the seed. -/
def StdRng.seed_from_u64 (seed : Nat) : RngState :=
  { s := seed % 2 ^ 64 }

/-- One step of the modelled stream. -/
def rngNext (st : RngState) : Nat × RngState :=
  let s2 := (st.s * 6364136223846793005 + 1442695040888963407) % 2 ^ 64
  (s2, { s := s2 })

/-- A unit-interval draw in `[0,1)` from the modelled stream. -/
def sampleUnit (st : RngState) : ℚ × RngState :=
  let (v, st2) := rngNext st
  (((v % 2 ^ 53 : Nat) : ℚ) / ((2 ^ 53 : Nat) : ℚ), st2)

/-- Modelled: `Uniform::new(min, max).sample`: `min + u·(max−min)` for a
unit draw `u`.  (`Uniform::new` panics on an invalid range in the rand
crate; the panic is not modelled and no claim reaches it.) -/
def uniformSample (min max : F64) (st : RngState) : F64 × RngState :=
  let (u, st2) := sampleUnit st
  (F64.add min (F64.mul (F64.finite u) (F64.sub max min)), st2)

/-- Modelled: `Normal::new(mean, std_dev).sample` (Box–Muller in the
crate).  The transform of the unit draws is not modelled bit-for-bit —
any fixed pure function of the stream has the properties the claims use
(determinism and mean/std plumbing). -/
def normalSample (mean std_dev : F64) (st : RngState) : F64 × RngState :=
  let (u1, st2) := sampleUnit st
  let (u2, st3) := sampleUnit st2
  (F64.add mean (F64.mul std_dev (F64.finite (u1 + u2 - 1))), st3)

/-- Modelled: `Exp::new(lambda).sample` (inverse CDF `−ln(1−u)/λ` in the
crate); the logarithm is irrational, so the model uses the fixed pure
surrogate `u/λ`. -/
def expSample (lambda : F64) (st : RngState) : F64 × RngState :=
  let (u, st2) := sampleUnit st
  (F64.div (F64.finite u) lambda, st2)

/-- `(0..count).map(|_| dist.sample(&mut rng)).collect()`. -/
def sampleList (sample : RngState → F64 × RngState) :
    Nat → RngState → List F64
  | 0, _ => []
  | n + 1, st =>
    let (x, st2) := sample st
    x :: sampleList sample n st2

/-- `HashMap::insert` on the association-list model (overwrites the key). -/
def alistInsert (l : List (String × String)) (k v : String) :
    List (String × String) :=
  (l.filter (fun p => p.1 != k)) ++ [(k, v)]

/-- The mutable `performance_metrics` map inside
`DefaultRandomDataGenerator` — the only state the generator retains
between calls. -/
structure GenState where
  performance_metrics : List (String × String)

namespace DefaultRandomDataGenerator

/-- The metrics update each generator method performs after sampling. -/
def updateMetrics (st : GenState) (dist : String) (count : Nat) : GenState :=
  { performance_metrics :=
      alistInsert (alistInsert st.performance_metrics "last_distribution" dist)
        "last_count" (toString count) }

/-- service.rs `generate_uniform` (lines 317-333). -/
def generate_uniform (st : GenState) (count seed : Nat) (min max : F64) :
    GenState × Except StatError (List F64) :=
  let rng := StdRng.seed_from_u64 seed
  let data := sampleList (uniformSample min max) count rng
  (updateMetrics st "uniform" count, .ok data)

/-- service.rs `generate_normal` (lines 335-354).  `Normal::new` fails in
the crate when the standard deviation is negative or NaN (the display
string of the crate error is modelled by its variant name). -/
def generate_normal (st : GenState) (count seed : Nat) (mean std_dev : F64) :
    GenState × Except StatError (List F64) :=
  let rng := StdRng.seed_from_u64 seed
  if !(F64.ble (F64.finite 0) std_dev) then
    (st, .error (StatError.Calculation ("无效的正态分布参数: " ++ "BadVariance")))
  else
    let data := sampleList (normalSample mean std_dev) count rng
    (updateMetrics st "normal" count, .ok data)

/-- service.rs `generate_exponential` (lines 356-375).  `Exp::new` fails
in the crate when `lambda ≤ 0` or NaN. -/
def generate_exponential (st : GenState) (count seed : Nat) (lambda : F64) :
    GenState × Except StatError (List F64) :=
  let rng := StdRng.seed_from_u64 seed
  if !(F64.blt (F64.finite 0) lambda) then
    (st, .error (StatError.Calculation ("无效的指数分布参数: " ++ "LambdaTooSmall")))
  else
    let data := sampleList (expSample lambda) count rng
    (updateMetrics st "exponential" count, .ok data)

/-- `get_performance_metrics` (clone of the current map). -/
def get_performance_metrics (st : GenState) : List (String × String) :=
  st.performance_metrics

end DefaultRandomDataGenerator

/-! ## Backend `mvp_stat` slice: composition service
(src/backend/src/slices/mvp_stat/service.rs) -/

/-- service.rs `generate_random_data` (lines 60-121): validate, resolve
defaults, dispatch on the distribution name (`min_value`/`max_value` are
reinterpreted as mean/std-dev for `normal` and as the rate for
`exponential`), and wrap the data with performance info.  The seed
generator's wall-clock base is the `now_millis` parameter; timers and
the logging/metrics sinks are not modelled. -/
def generate_random_data (gen : GenState) (now_millis : Nat)
    (req : GenerateRandomDataRequest) :
    GenState × Except StatError GenerateRandomDataResponse :=
  match req.validate with
  | .error e => (gen, .error e)
  | .ok () =>
    let count := req.count.getD 10000
    let seed_gen := SeedGenerator.new now_millis
    let seed :=
      match req.seed with
      | some s => s
      | none => (seed_gen.next_seed).1
    let distribution := (req.distribution.getD "uniform")
    let (gen2, dataRes) :=
      if distribution == "normal" then
        let mean := req.min_value.getD (F64.finite 0)
        let std_dev := req.max_value.getD (F64.finite 1)
        DefaultRandomDataGenerator.generate_normal gen count seed mean std_dev
      else if distribution == "exponential" then
        let lambda := req.min_value.getD (F64.finite 1)
        DefaultRandomDataGenerator.generate_exponential gen count seed lambda
      else
        let min := req.min_value.getD (F64.finite 0)
        let max := req.max_value.getD (F64.finite 100)
        DefaultRandomDataGenerator.generate_uniform gen count seed min max
    match dataRes with
    | .error e => (gen2, .error e)
    | .ok data =>
      let perf_metrics :=
        alistInsert (DefaultRandomDataGenerator.get_performance_metrics gen2)
          "data_points" (toString count)
      (gen2, .ok {
        data := data,
        count := count,
        seed := seed,
        performance := {
          execution_time_ms := 0,
          memory_usage_bytes := some (count * 8),
          implementation := "rust",
          metrics := perf_metrics } })

/-- `BasicStatistics` (types.rs lines 112-126). -/
structure BasicStatistics where
  count : Nat
  sum : F64
  mean : F64
  min : F64
  max : F64
  range : F64

/-- `DistributionStatistics` (types.rs lines 129-141). -/
structure DistributionStatistics where
  median : F64
  mode : List F64
  variance : F64
  std_dev : F64
  iqr : F64

/-- `PercentileInfo` (types.rs lines 144-154). -/
structure PercentileInfo where
  q1 : F64
  q2 : F64
  q3 : F64
  custom : List (String × F64)

/-- `ShapeStatistics` (types.rs lines 157-165). -/
structure ShapeStatistics where
  skewness : F64
  kurtosis : F64
  distribution_shape : String

/-- `StatisticsResult` (types.rs lines 99-109). -/
structure StatisticsResult where
  basic : BasicStatistics
  distribution : DistributionStatistics
  percentiles : PercentileInfo
  shape : ShapeStatistics

/-- Model of `format!("{}", p)` on an `f64` for the custom percentile
keys.  Rust's shortest-roundtrip float display is not modelled
digit-for-digit (integral values do print without a fractional part, as
in Rust); no claim depends on the rendering. -/
def formatF64 : F64 → String
  | F64.finite q =>
    if q.den == 1 then toString q.num
    else toString q.num ++ "/" ++ toString q.den
  | F64.nan => "NaN"
  | F64.inf => "inf"
  | F64.neginf => "-inf"

/-- service.rs `build_statistics_result` (lines 226-290): assemble the
`StatisticsResult` from the engine's per-algorithm JSON results.  A key
that is absent (or not a number) contributes `unwrap_or(0.0)`. -/
def build_statistics_result (results : List (String × Json)) (data : List F64)
    (custom_percentiles : Option (List F64)) : Except StatError StatisticsResult :=
  let count := data.length
  let get_value := fun (key : String) =>
    ((alistGet? results key).bind Json.as_f64).getD (F64.finite 0)
  let sum := get_value "sum"
  let mean := get_value "mean"
  let min := get_value "min"
  let max := get_value "max"
  let range := F64.sub max min
  let median := get_value "median"
  let variance := get_value "variance"
  let std_dev := get_value "std"
  let q1 := get_value "q1"
  let q3 := get_value "q3"
  let iqr := F64.sub q3 q1
  let custom_perc :=
    match custom_percentiles with
    | some percentiles =>
      percentiles.map (fun p =>
        ("p" ++ formatF64 p, get_value ("percentile_" ++ formatF64 p)))
    | none => []
  .ok {
    basic := { count := count, sum := sum, mean := mean, min := min,
               max := max, range := range },
    distribution := { median := median, mode := [], variance := variance,
                      std_dev := std_dev, iqr := iqr },
    percentiles := { q1 := q1, q2 := median, q3 := q3, custom := custom_perc },
    shape := { skewness := get_value "skewness",
               kurtosis := get_value "kurtosis",
               distribution_shape := "analytics_engine" } }

/-! ## Claim C1: empty data vs the `count` algorithm -/

/-- The `count`-on-empty-data request of claim C1. -/
def c1Request : AnalysisRequest :=
  { request_id := "c1", algorithm := "count", data := [], params := [],
    options := AnalysisOptions.default }

/-- C1 counterexample: `analyze_rust` on algorithm `count` with empty data
fails with `Empty data` instead of succeeding with result 0 — the blanket
empty-data guard precedes the algorithm dispatch. -/
theorem c1_count_empty_fails :
    analyze_rust c1Request = .error "Empty data" := rfl

/-- C1 (amended): on empty data every algorithm, `count` included, fails
with `Empty data`; the `count` kernel itself maps any data to its length
(0 on empty input) but is unreachable for empty data through
`analyze_rust`. -/
theorem c1_empty_data_guard (req : AnalysisRequest) (h : req.data = []) :
    analyze_rust req = .error "Empty data" ∧
    calculate_count ([] : List F64) = .ok 0 := by
  refine ⟨?_, rfl⟩
  simp [analyze_rust, h]

/-- C1 witness: the amended theorem applied to the concrete `count`
request with empty data. -/
theorem c1_empty_data_guard_witness :
    analyze_rust c1Request = .error "Empty data" ∧
    calculate_count ([] : List F64) = .ok 0 :=
  c1_empty_data_guard c1Request rfl

/-! ## Claim C2: dispatcher with `prefer_native=false`, `allow_alternate=false` -/

/-- Options with both selection flags off. -/
def c2Options : AnalysisOptions :=
  { prefer_rust := false, allow_python := false, timeout_ms := 30000,
    include_metadata := true }

/-- A `mean` request the native kernel can serve, but with both selection
flags off. -/
def c2Request : AnalysisRequest :=
  { request_id := "c2", algorithm := "mean",
    data := [F64.finite 1, F64.finite 2, F64.finite 3], params := [],
    options := c2Options }

/-- C2 counterexample: `mean` is registered as a native (rust) algorithm
and its native kernel succeeds on the request's data, yet with
`prefer_native=false` and `allow_alternate=false` the dispatcher fails
with the no-implementation error instead of selecting the native
candidate. -/
theorem c2_native_only_options_rejected :
    is_algorithm_supported none "mean" "rust" = true ∧
    (analyze_rust c2Request).isOk = true ∧
    Dispatcher.analyze none c2Request =
      .error (noImplementationMsg "mean" false false) :=
  ⟨rfl, rfl, rfl⟩

/-- C2 (amended): with `prefer_native=false` and `allow_alternate=false`
the dispatcher considers no candidate at all and always fails with the
no-implementation error, even when a native implementation exists and
would succeed. -/
theorem c2_no_options_no_candidates (pythonImpl : PythonImpl)
    (req : AnalysisRequest)
    (h1 : req.options.prefer_rust = false)
    (h2 : req.options.allow_python = false) :
    Dispatcher.analyze pythonImpl req =
      .error (noImplementationMsg req.algorithm false false) := by
  unfold Dispatcher.analyze
  rw [h1, h2]
  cases pythonImpl <;> rfl

/-- C2 witness: the amended theorem applied to the concrete `mean`
request. -/
theorem c2_no_options_no_candidates_witness :
    Dispatcher.analyze none c2Request =
      .error (noImplementationMsg "mean" false false) :=
  c2_no_options_no_candidates none c2Request rfl rfl

/-! ## Claim C4: `request_id` echo in responses -/

/-- The unary claim-C4 request: id `"a"`, a succeeding `mean` call. -/
def c4Request : GrpcAnalysisRequest :=
  { request_id := "a", algorithm := "mean",
    data := [F64.finite 1, F64.finite 2, F64.finite 3, F64.finite 4,
             F64.finite 5],
    params := [],
    options := some { prefer_rust := true, allow_python := false,
                      timeout_ms := 5000, include_metadata := true } }

/-- C4 (code bug, evaluated at the failing input): the successful unary
`Analyze` response and the successful batch item both carry
`request_id = ""` although the request's id is `"a"` —
`convert_internal_to_grpc_response` hardcodes the empty id (its comment
defers to the call sites, which never set it). -/
theorem c4_request_id_not_echoed :
    (AnalyticsService.analyze none c4Request).map
      (fun resp => (resp.success, resp.request_id)) = .ok (true, "") ∧
    (AnalyticsService.batchItem none c4Request).success = true ∧
    (AnalyticsService.batchItem none c4Request).request_id = "" ∧
    c4Request.request_id = "a" :=
  ⟨rfl, rfl, rfl, rfl⟩

/-! ## Claim C5: NaN/infinity rejection -/

/-- Data containing a NaN element. -/
def c5NanData : List F64 := [F64.nan, F64.finite 1]

/-- The composition-side request with NaN data. -/
def c5CalcRequest : CalculateStatisticsRequest :=
  { data := c5NanData, statistics := ["mean"], percentiles := none,
    use_analytics_engine := some true, prefer_rust := some true }

/-- The engine-side request with NaN data. -/
def c5EngineRequest : AnalysisRequest :=
  { request_id := "c5", algorithm := "mean", data := c5NanData,
    params := [], options := AnalysisOptions.default }

/-- C5 (code bug, evaluated at the failing input): NaN data passes the
composition-side `validate` and the engine-side `analyze_rust` succeeds
on it — no `Validation` rejection happens on either side — while the
repo's own (never-called) `validate_data_quality` helper rejects exactly
as the spec demands. -/
theorem c5_nan_data_accepted :
    c5CalcRequest.validate = .ok () ∧
    (analyze_rust c5EngineRequest).isOk = true ∧
    validate_data_quality c5NanData =
      .error (StatError.Validation "数据包含NaN值，位置: 0") :=
  ⟨rfl, rfl, rfl⟩

/-! ## Claim C7: dispatcher exhaustion -/

/-- A request whose single enabled candidate (native) fails:
`variance` on one data point. -/
def c7Request : AnalysisRequest :=
  { request_id := "c7", algorithm := "variance", data := [F64.finite 5],
    params := [],
    options := { prefer_rust := true, allow_python := false,
                 timeout_ms := 5000, include_metadata := true } }

/-- Substring test on character lists (used to state that one message
does not contain another). -/
def containsSub (needle : List Char) : List Char → Bool
  | [] => needle.isEmpty
  | c :: rest => needle.isPrefixOf (c :: rest) || containsSub needle rest

/-- C7 counterexample: the only candidate fails with the variance error,
but the dispatcher's failure message is the generic no-implementation
message, which does not contain the candidate's own error. -/
theorem c7_exhaustion_message_generic :
    analyze_rust c7Request = .error "Need at least 2 data points for variance" ∧
    Dispatcher.analyze none c7Request =
      .error (noImplementationMsg "variance" true false) ∧
    containsSub "Need at least 2 data points for variance".toList
      (noImplementationMsg "variance" true false).toList = false := by
  refine ⟨rfl, rfl, by decide⟩

/-- C7 (amended): when every enabled candidate fails, the dispatcher
returns the generic no-implementation message naming the algorithm and
the two option flags — the candidates' own errors are discarded — and
exactly one execution attempt is made per enabled candidate. -/
theorem c7_exhaustion_all_candidates_fail (pythonImpl : PythonImpl)
    (req : AnalysisRequest)
    (hrust : (analyze_rust req).isOk = false)
    (hpy : ∀ f, pythonImpl = some f → (f req).isOk = false) :
    Dispatcher.analyzeTrace pythonImpl req =
      (.error (noImplementationMsg req.algorithm req.options.prefer_rust
          req.options.allow_python),
        (if req.options.prefer_rust then 1 else 0) +
          (if pythonImpl.isSome && req.options.allow_python then 1 else 0)) ∧
    Dispatcher.analyze pythonImpl req =
      .error (noImplementationMsg req.algorithm req.options.prefer_rust
        req.options.allow_python) := by
  have hpyErr : ∀ f, pythonImpl = some f → req.options.allow_python = true →
      ∃ e2, f req = .error e2 := by
    intro f hf _
    have := hpy f hf
    cases h : f req with
    | ok v => rw [h] at this; simp [Except.isOk, Except.toBool] at this
    | error e2 => exact ⟨e2, rfl⟩
  cases hp : req.options.prefer_rust with
  | true =>
    obtain ⟨e, he⟩ : ∃ e, analyze_rust req = .error e := by
      cases h : analyze_rust req with
      | ok v => rw [h] at hrust; simp [Except.isOk, Except.toBool] at hrust
      | error e => exact ⟨e, rfl⟩
    cases pythonImpl with
    | none => simp [Dispatcher.analyzeTrace, Dispatcher.analyze, hp, he]
    | some f =>
      cases ha : req.options.allow_python with
      | false => simp [Dispatcher.analyzeTrace, Dispatcher.analyze, hp, ha, he]
      | true =>
        obtain ⟨e2, he2⟩ := hpyErr f rfl ha
        simp [Dispatcher.analyzeTrace, Dispatcher.analyze, hp, ha, he, he2]
  | false =>
    cases pythonImpl with
    | none => simp [Dispatcher.analyzeTrace, Dispatcher.analyze, hp]
    | some f =>
      cases ha : req.options.allow_python with
      | false => simp [Dispatcher.analyzeTrace, Dispatcher.analyze, hp, ha]
      | true =>
        obtain ⟨e2, he2⟩ := hpyErr f rfl ha
        simp [Dispatcher.analyzeTrace, Dispatcher.analyze, hp, ha, he2]

/-- C7 witness: the amended theorem applied to the concrete failing
`variance` request on a bridge-less build (one candidate, one attempt). -/
theorem c7_exhaustion_witness :
    Dispatcher.analyzeTrace none c7Request =
      (.error (noImplementationMsg "variance" true false), 1) ∧
    Dispatcher.analyze none c7Request =
      .error (noImplementationMsg "variance" true false) :=
  c7_exhaustion_all_candidates_fail none c7Request rfl
    (fun _ h => Option.noConfusion h)

/-! ## Claim C8: encoding of not-requested statistics -/

/-- Concrete data for the C8 counterexample. -/
def c8Data : List F64 := [F64.finite 1, F64.finite 2, F64.finite 3]

/-- C8 counterexample: with an empty engine-result map (no statistic was
requested/computed), the assembled fields are `0.0` — not NaN. -/
theorem c8_missing_field_zero_not_nan :
    (build_statistics_result [] c8Data none).map
      (fun r => (r.basic.mean, r.distribution.std_dev, r.shape.skewness)) =
      .ok (F64.finite 0, F64.finite 0, F64.finite 0) ∧
    (F64.finite 0).is_nan = false :=
  ⟨rfl, rfl⟩

/-- C8 (amended): a field whose statistic was not computed is encoded as
`0.0` (the `unwrap_or(0.0)` default) — not NaN — and is never omitted:
the assembled `StatisticsResult` always carries every field. -/
theorem c8_missing_fields_default_zero (results : List (String × Json))
    (data : List F64) (cp : Option (List F64))
    (hmean : alistGet? results "mean" = none)
    (hstd : alistGet? results "std" = none)
    (hskew : alistGet? results "skewness" = none) :
    ∃ r, build_statistics_result results data cp = .ok r ∧
      r.basic.mean = F64.finite 0 ∧
      r.distribution.std_dev = F64.finite 0 ∧
      r.shape.skewness = F64.finite 0 := by
  refine ⟨_, rfl, ?_, ?_, ?_⟩ <;>
    simp [build_statistics_result, hmean, hstd, hskew]

/-- C8 witness: the amended theorem applied to the empty result map. -/
theorem c8_missing_fields_default_zero_witness :
    ∃ r, build_statistics_result [] c8Data none = .ok r ∧
      r.basic.mean = F64.finite 0 ∧
      r.distribution.std_dev = F64.finite 0 ∧
      r.shape.skewness = F64.finite 0 :=
  c8_missing_fields_default_zero [] c8Data none rfl rfl rfl

/-! ## Claim C9: interpretation of `min_value`/`max_value` per distribution -/

/-- An exponential request with `min_value = 5` (the rate) and no
`max_value`. -/
def c9ReqNoMax : GenerateRandomDataRequest :=
  { count := some 5, seed := some 1, min_value := some (F64.finite 5),
    max_value := none, distribution := some "exponential" }

/-- The same request with `max_value = 1` supplied. -/
def c9ReqWithMax : GenerateRandomDataRequest :=
  { count := some 5, seed := some 1, min_value := some (F64.finite 5),
    max_value := some (F64.finite 1), distribution := some "exponential" }

/-- C9 counterexample: for `exponential`, `max_value` is not fully
ignored — the same request succeeds without `max_value` but is rejected
by the generic `min < max` validation when `max_value = 1` is supplied. -/
theorem c9_exponential_max_value_not_ignored :
    ((generate_random_data ⟨[]⟩ 0 c9ReqNoMax).2.map (·.count)) = .ok 5 ∧
    (generate_random_data ⟨[]⟩ 0 c9ReqWithMax).2 =
      .error (StatError.Validation "最小值必须小于最大值") :=
  ⟨rfl, rfl⟩

/-- The seed `generate_random_data` resolves: the explicit one, else the
time-based generated one. -/
def seedOfReq (req : GenerateRandomDataRequest) (now_millis : Nat) : Nat :=
  match req.seed with
  | some s => s
  | none => ((SeedGenerator.new now_millis).next_seed).1

/-! ## Claim C3: batch streaming semantics -/

/-- Helper: the batch stream loop is elementwise application of the
per-item handler. -/
theorem batchLoop_eq_map (pythonImpl : PythonImpl)
    (reqs : List GrpcAnalysisRequest) :
    AnalyticsService.batchLoop pythonImpl reqs =
      reqs.map (AnalyticsService.batchItem pythonImpl) := by
  induction reqs with
  | nil => rfl
  | cons r rest ih => simp [AnalyticsService.batchLoop, ih]

/-- C3: `BatchAnalyze` emits exactly one response per sub-request in input
order (the stream is the elementwise image of the sub-request list, so
slot `i` holds the response for sub-request `i`), and a sub-request whose
dispatch fails yields a `success=false` item that carries its request id
and error, without terminating the stream. -/
theorem c3_batch_one_response_per_slot (pythonImpl : PythonImpl)
    (breq : GrpcBatchAnalysisRequest) :
    AnalyticsService.batch_analyze pythonImpl breq =
      breq.requests.map (AnalyticsService.batchItem pythonImpl) ∧
    (AnalyticsService.batch_analyze pythonImpl breq).length =
      breq.requests.length ∧
    (∀ grpc_req internal_req e,
      convert_grpc_to_internal_request grpc_req = .ok internal_req →
      Dispatcher.analyze pythonImpl internal_req = .error e →
      (AnalyticsService.batchItem pythonImpl grpc_req).success = false ∧
      (AnalyticsService.batchItem pythonImpl grpc_req).request_id =
        grpc_req.request_id ∧
      (AnalyticsService.batchItem pythonImpl grpc_req).error_message = e) := by
  refine ⟨batchLoop_eq_map pythonImpl breq.requests, ?_, ?_⟩
  · show (AnalyticsService.batchLoop pythonImpl breq.requests).length =
      breq.requests.length
    rw [batchLoop_eq_map pythonImpl breq.requests]
    exact List.length_map breq.requests (AnalyticsService.batchItem pythonImpl)
  · intro grpc_req internal_req e hconv hdisp
    refine ⟨?_, ?_, ?_⟩ <;> simp [AnalyticsService.batchItem, hconv, hdisp]

/-- gRPC options used in the C3 witness batch. -/
def c3Options : GrpcAnalysisOptions :=
  { prefer_rust := true, allow_python := false, timeout_ms := 5000,
    include_metadata := true }

/-- Witness batch item `a`: a succeeding `mean` call. -/
def c3ReqA : GrpcAnalysisRequest :=
  { request_id := "a", algorithm := "mean",
    data := [F64.finite 1, F64.finite 2, F64.finite 3], params := [],
    options := some c3Options }

/-- Witness batch item `b`: an unknown algorithm, which fails. -/
def c3ReqB : GrpcAnalysisRequest :=
  { request_id := "b", algorithm := "unknown", data := [F64.finite 1],
    params := [], options := some c3Options }

/-- Witness batch item `c`: a succeeding `max` call. -/
def c3ReqC : GrpcAnalysisRequest :=
  { request_id := "c", algorithm := "max",
    data := [F64.finite 7, F64.finite 2, F64.finite 9, F64.finite 4],
    params := [], options := some c3Options }

/-- The three-item witness batch (middle item fails). -/
def c3Batch : GrpcBatchAnalysisRequest :=
  { batch_id := "batch-1", requests := [c3ReqA, c3ReqB, c3ReqC] }

/-- The converted internal form of witness item `b`. -/
def c3InternalB : AnalysisRequest :=
  { request_id := "b", algorithm := "unknown", data := [F64.finite 1],
    params := [],
    options := { prefer_rust := true, allow_python := false,
                 timeout_ms := 5000, include_metadata := true } }

/-- C3 witness: the theorem applied to the concrete three-item batch whose
middle item fails: three responses are emitted and the failing slot keeps
its id with `success=false`. -/
theorem c3_batch_witness :
    (AnalyticsService.batch_analyze none c3Batch).length = 3 ∧
    (AnalyticsService.batchItem none c3ReqB).success = false ∧
    (AnalyticsService.batchItem none c3ReqB).request_id = "b" := by
  refine ⟨(c3_batch_one_response_per_slot none c3Batch).2.1.trans rfl, ?_, ?_⟩
  · exact ((c3_batch_one_response_per_slot none c3Batch).2.2 c3ReqB c3InternalB
      (noImplementationMsg "unknown" true false) rfl rfl).1
  · exact ((c3_batch_one_response_per_slot none c3Batch).2.2 c3ReqB c3InternalB
      (noImplementationMsg "unknown" true false) rfl rfl).2.1

/-! ## Claim C6: generator determinism and statelessness -/

/-- Helper: the data outcome of `generate_uniform` does not depend on the
retained metrics state. -/
theorem generate_uniform_snd_state_free (st1 st2 : GenState)
    (count seed : Nat) (mn mx : F64) :
    (DefaultRandomDataGenerator.generate_uniform st1 count seed mn mx).2 =
      (DefaultRandomDataGenerator.generate_uniform st2 count seed mn mx).2 := rfl

/-- Helper: the data outcome of `generate_normal` does not depend on the
retained metrics state. -/
theorem generate_normal_snd_state_free (st1 st2 : GenState)
    (count seed : Nat) (mean std_dev : F64) :
    (DefaultRandomDataGenerator.generate_normal st1 count seed mean std_dev).2 =
      (DefaultRandomDataGenerator.generate_normal st2 count seed mean std_dev).2 := by
  unfold DefaultRandomDataGenerator.generate_normal
  cases hc : (!(F64.ble (F64.finite 0) std_dev)) <;> simp [hc]

/-- Helper: the data outcome of `generate_exponential` does not depend on
the retained metrics state. -/
theorem generate_exponential_snd_state_free (st1 st2 : GenState)
    (count seed : Nat) (lambda : F64) :
    (DefaultRandomDataGenerator.generate_exponential st1 count seed lambda).2 =
      (DefaultRandomDataGenerator.generate_exponential st2 count seed lambda).2 := by
  unfold DefaultRandomDataGenerator.generate_exponential
  cases hc : (!(F64.blt (F64.finite 0) lambda)) <;> simp [hc]

/-- Helper: with an explicit seed, the data outcome of
`generate_random_data` is independent of the retained generator state and
of the wall clock. -/
theorem generate_random_data_state_free (st1 st2 : GenState)
    (now1 now2 : Nat) (req : GenerateRandomDataRequest) (s : Nat)
    (h : req.seed = some s) :
    (generate_random_data st1 now1 req).2.map (·.data) =
      (generate_random_data st2 now2 req).2.map (·.data) := by
  unfold generate_random_data
  cases hv : req.validate with
  | error e => rfl
  | ok u =>
    cases u
    rw [h]
    dsimp only
    cases h1 : (req.distribution.getD "uniform" == "normal") with
    | true =>
      simp only [reduceIte]
      rw [generate_normal_snd_state_free st1 ⟨[]⟩, generate_normal_snd_state_free st2 ⟨[]⟩]
      cases hg : (DefaultRandomDataGenerator.generate_normal ⟨[]⟩
          (req.count.getD 10000) s (req.min_value.getD (F64.finite 0))
          (req.max_value.getD (F64.finite 1))).2 <;> rfl
    | false =>
      simp only [Bool.false_eq_true, reduceIte]
      cases h2 : (req.distribution.getD "uniform" == "exponential") with
      | true =>
        simp only [reduceIte]
        rw [generate_exponential_snd_state_free st1 ⟨[]⟩,
            generate_exponential_snd_state_free st2 ⟨[]⟩]
        cases hg : (DefaultRandomDataGenerator.generate_exponential ⟨[]⟩
            (req.count.getD 10000) s (req.min_value.getD (F64.finite 1))).2 <;> rfl
      | false =>
        simp only [Bool.false_eq_true, reduceIte]
        rw [generate_uniform_snd_state_free st1 ⟨[]⟩,
            generate_uniform_snd_state_free st2 ⟨[]⟩]
        cases hg : (DefaultRandomDataGenerator.generate_uniform ⟨[]⟩
            (req.count.getD 10000) s (req.min_value.getD (F64.finite 0))
            (req.max_value.getD (F64.finite 100))).2 <;> rfl

/-- C6: with an explicitly supplied seed the data generation is a
deterministic function of (distribution, count, seed, parameters): the
produced sequence is independent of the retained generator state and the
wall clock, so two calls — also sequentially, the second starting from
the state the first left behind — return identical `f64` sequences. -/
theorem c6_generator_deterministic (st1 st2 : GenState) (now1 now2 : Nat)
    (req : GenerateRandomDataRequest) (s : Nat) (h : req.seed = some s) :
    (generate_random_data st1 now1 req).2.map (·.data) =
      (generate_random_data st2 now2 req).2.map (·.data) ∧
    (generate_random_data (generate_random_data st1 now1 req).1 now2 req).2.map
        (·.data) =
      (generate_random_data st1 now1 req).2.map (·.data) :=
  ⟨generate_random_data_state_free st1 st2 now1 now2 req s h,
   generate_random_data_state_free _ st1 now2 now1 req s h⟩

/-- The concrete C6 witness request: uniform, count 3, explicit seed 7. -/
def c6Request : GenerateRandomDataRequest :=
  { count := some 3, seed := some 7, min_value := some (F64.finite 0),
    max_value := some (F64.finite 10), distribution := some "uniform" }

/-- C6 witness: the theorem applied to the concrete request, two distinct
prior generator states and two distinct wall-clock instants. -/
theorem c6_generator_deterministic_witness :
    (generate_random_data ⟨[]⟩ 0 c6Request).2.map (·.data) =
      (generate_random_data ⟨[("last_count", "99")]⟩ 123 c6Request).2.map
        (·.data) ∧
    (generate_random_data (generate_random_data ⟨[]⟩ 0 c6Request).1 123
        c6Request).2.map (·.data) =
      (generate_random_data ⟨[]⟩ 0 c6Request).2.map (·.data) :=
  c6_generator_deterministic ⟨[]⟩ ⟨[("last_count", "99")]⟩ 0 123 c6Request 7 rfl

/-- C9 (amended): `generate_random_data` reinterprets the range fields per
distribution — for `normal`, `min_value` is the mean (default 0.0) and
`max_value` the standard deviation (default 1.0); for `exponential`,
`min_value` is the rate λ (default 1.0) and `max_value` is not used by
the sampler — but `max_value` still participates in the request-level
`min < max` validation, so it can cause rejection; there are no separate
mean/std-dev/λ fields at this interface. -/
theorem c9_minmax_reinterpretation (st : GenState) (now : Nat)
    (req : GenerateRandomDataRequest) (hval : req.validate = .ok ()) :
    (req.distribution = some "normal" →
      (generate_random_data st now req).2.map (·.data) =
        (DefaultRandomDataGenerator.generate_normal st (req.count.getD 10000)
          (seedOfReq req now) (req.min_value.getD (F64.finite 0))
          (req.max_value.getD (F64.finite 1))).2) ∧
    (req.distribution = some "exponential" →
      (generate_random_data st now req).2.map (·.data) =
        (DefaultRandomDataGenerator.generate_exponential st
          (req.count.getD 10000) (seedOfReq req now)
          (req.min_value.getD (F64.finite 1))).2) := by
  constructor
  · intro hd
    unfold generate_random_data
    rw [hval]
    dsimp only
    rw [hd]
    simp only [Option.getD_some]
    rw [if_pos (by decide)]
    rw [show (match req.seed with
        | some s => s
        | none => ((SeedGenerator.new now).next_seed).1) = seedOfReq req now
      from rfl]
    cases hg : (DefaultRandomDataGenerator.generate_normal st
        (req.count.getD 10000) (seedOfReq req now)
        (req.min_value.getD (F64.finite 0))
        (req.max_value.getD (F64.finite 1))).2 <;> rfl
  · intro hd
    unfold generate_random_data
    rw [hval]
    dsimp only
    rw [hd]
    simp only [Option.getD_some]
    rw [if_neg (by decide), if_pos (by decide)]
    rw [show (match req.seed with
        | some s => s
        | none => ((SeedGenerator.new now).next_seed).1) = seedOfReq req now
      from rfl]
    cases hg : (DefaultRandomDataGenerator.generate_exponential st
        (req.count.getD 10000) (seedOfReq req now)
        (req.min_value.getD (F64.finite 1))).2 <;> rfl

/-- The concrete normal-distribution request of the C9 witness: mean 2,
standard deviation 3 (carried in `min_value`/`max_value`). -/
def c9NormalReq : GenerateRandomDataRequest :=
  { count := some 4, seed := some 11, min_value := some (F64.finite 2),
    max_value := some (F64.finite 3), distribution := some "normal" }

/-- C9 witness: the amended theorem applied to the concrete normal
request. -/
theorem c9_minmax_reinterpretation_witness :
    (generate_random_data ⟨[]⟩ 0 c9NormalReq).2.map (·.data) =
      (DefaultRandomDataGenerator.generate_normal ⟨[]⟩ 4 (seedOfReq c9NormalReq 0)
        (F64.finite 2) (F64.finite 3)).2 :=
  (c9_minmax_reinterpretation ⟨[]⟩ 0 c9NormalReq rfl).1 rfl

/-! ## Claim C10: zero-variance guard in skewness/kurtosis

For this claim IEEE rounding is load-bearing: with exact arithmetic the
sample standard deviation of an all-equal sequence is 0 and the guard
always fires, but in binary64 the sum and the mean of e.g. three copies
of `0.1` round, the computed mean differs from the elements, and the
computed std is a small nonzero value.  The kernels this claim names are
therefore re-embedded below over `Bin64`, a rounded binary64 model:
dyadic values `m·2^e` with every operation rounded to 53 significant
bits, round-to-nearest ties-to-even, exactly as the hardware rounds.
Exponent-range effects (overflow to ∞, underflow to subnormals) are not
modelled; every value in the evaluations below is far inside the normal
range. -/

/-- `2^k` as an integer (`Nat` powers evaluate fast in the kernel). -/
def twoPow (k : Nat) : Int := ((2 ^ k : Nat) : Int)

/-- Bit length by fuelled structural recursion (the library's `Nat.log2`
does not reduce in the kernel); the recursion stops at 0, so only
`bitLen n` steps of the fuel are ever used. -/
def bitLenAux : Nat → Nat → Nat
  | 0, _ => 0
  | fuel + 1, n => if n = 0 then 0 else bitLenAux fuel (n / 2) + 1

/-- Bit length: the least `b` with `n < 2^b`. -/
def bitLen (n : Nat) : Nat := bitLenAux 4096 n

/-- Floor integer square root by fuelled Newton iteration (the library's
`Nat.sqrt` does not reduce in the kernel).  The initial guess
`2^(bitLen n / 2 + 1)` bounds the root from above, so the iteration
descends monotonically to the floor root and the fuel is ample. -/
def isqrtAux : Nat → Nat → Nat → Nat
  | 0, _, g => g
  | fuel + 1, n, g =>
    let next := (g + n / g) / 2
    if next < g then isqrtAux fuel n next else g

/-- Floor integer square root. -/
def isqrt (n : Nat) : Nat :=
  if n ≤ 1 then n else isqrtAux 128 n (2 ^ (bitLen n / 2 + 1))

/-- A finite binary64 value `m · 2^e`.  Every operation below returns the
canonical form (odd significand, or `⟨0, 0⟩`), so equal values computed
by the model have equal representations. -/
structure Bin64 where
  m : Int
  e : Int
deriving DecidableEq

/-- Strip trailing zero bits of the significand (fuelled; 64 steps cover
any ≤ 54-bit significand). -/
def normBin64Aux : Nat → Int → Int → Bin64
  | 0, m, e => ⟨m, e⟩
  | fuel + 1, m, e =>
    if m % 2 = 0 then normBin64Aux fuel (m / 2) (e + 1) else ⟨m, e⟩

/-- Canonical form of a nonzero dyadic. -/
def normBin64 (m : Int) (e : Int) : Bin64 :=
  if m = 0 then ⟨0, 0⟩ else normBin64Aux 64 m e

/-- Round `m·2^e` to 53 significant bits, round-to-nearest ties-to-even —
the binary64 rounding applied to the exact result of every arithmetic
operation.  `sticky = true` records that the true magnitude lies
strictly above `|m|·2^e` (truncating division and square root produce
this); callers pass it only when `|m|` has more than 53 bits, so a tie
with the sticky bit set is known to lie strictly above the midpoint and
rounds up. -/
def roundB (m : Int) (e : Int) (sticky : Bool) : Bin64 :=
  if m = 0 then ⟨0, 0⟩
  else
    let n := m.natAbs
    let b := bitLen n
    if b ≤ 53 then normBin64 m e
    else
      let shift := b - 53
      let keep := n / 2 ^ shift
      let rest := n % 2 ^ shift
      let half := 2 ^ (shift - 1)
      let up :=
        if half < rest then true
        else if rest < half then false
        else if sticky then true
        else keep % 2 == 1
      let keep2 := if up then keep + 1 else keep
      let mOut : Int := if keep2 = 2 ^ 53 then ((2 ^ 52 : Nat) : Int) else (keep2 : Int)
      let eOut : Int := if keep2 = 2 ^ 53 then e + (shift : Int) + 1 else e + (shift : Int)
      normBin64 (if m < 0 then -mOut else mOut) eOut

/-- binary64 addition: align the exponents, add exactly, round once. -/
def bAdd (a b : Bin64) : Bin64 :=
  let e := min a.e b.e
  roundB (a.m * twoPow (a.e - e).toNat + b.m * twoPow (b.e - e).toNat) e false

/-- binary64 negation (exact). -/
def bNeg (a : Bin64) : Bin64 := ⟨-a.m, a.e⟩

/-- binary64 subtraction (negate and add; one rounding). -/
def bSub (a b : Bin64) : Bin64 := bAdd a (bNeg b)

/-- binary64 multiplication: multiply exactly, round once. -/
def bMul (a b : Bin64) : Bin64 :=
  roundB (a.m * b.m) (a.e + b.e) false

/-- binary64 division, correctly rounded: scale the dividend so the
truncated integer quotient has more than 53 bits, divide, and round with
the remainder as sticky bit.  Division by zero (±∞/NaN in IEEE) is
unreachable in the kernels — the length guards and the zero-std guard
ensure nonzero divisors — and is mapped to `⟨0, 0⟩`. -/
def bDiv (a b : Bin64) : Bin64 :=
  if a.m = 0 ∨ b.m = 0 then ⟨0, 0⟩
  else
    let S := 60 + bitLen b.m.natAbs
    let q := a.m.natAbs * 2 ^ S / b.m.natAbs
    let r := a.m.natAbs * 2 ^ S % b.m.natAbs
    let sgn := decide (a.m < 0) == decide (b.m < 0)
    roundB (if sgn then (q : Int) else -(q : Int)) (a.e - b.e - (S : Int)) (r != 0)

/-- binary64 square root, correctly rounded: even-align the exponent,
scale by `2^120` so the floor root has more than 53 bits, and round with
a sticky bit when the root is inexact.  A negative radicand (NaN in
IEEE) is unreachable — the kernels take the root of a sample variance —
and is mapped to `⟨0, 0⟩`. -/
def bSqrt (a : Bin64) : Bin64 :=
  if a.m ≤ 0 then ⟨0, 0⟩
  else
    let n0 : Nat := if a.e % 2 = 0 then a.m.natAbs else 2 * a.m.natAbs
    let e0 : Int := if a.e % 2 = 0 then a.e else a.e - 1
    let n := n0 * 2 ^ 120
    let t := isqrt n
    roundB (t : Int) (e0 / 2 - 60) (t * t != n)

/-- IEEE equality on the model, as value comparison of `m·2^e`. -/
def bBeq (a b : Bin64) : Bool :=
  if a.e ≤ b.e then a.m == b.m * twoPow (b.e - a.e).toNat
  else a.m * twoPow (a.e - b.e).toNat == b.m

/-- `iter().sum::<f64>()` over the rounded model. -/
def bSum (l : List Bin64) : Bin64 := l.foldl bAdd ⟨0, 0⟩

/-- `data.len() as f64` (exact for any length the engine can receive). -/
def bOfNat (n : Nat) : Bin64 := roundB (n : Int) 0 false

/-- Rust's `powi` (repeated multiplication) over the rounded model. -/
def bPowi (x : Bin64) : Nat → Bin64
  | 0 => ⟨1, 0⟩
  | n + 1 => bMul (bPowi x n) x

/-- stats.rs `calculate_mean`, rounded binary64 arithmetic (same
structure as `calculate_mean` above; claim C10 is settled against this
rounding-faithful re-embedding). -/
def calculate_meanR (data : List Bin64) : Except String Bin64 :=
  if data.isEmpty then .error "Empty data"
  else .ok (bDiv (bSum data) (bOfNat data.length))

/-- stats.rs `calculate_variance`, rounded binary64 arithmetic. -/
def calculate_varianceR (data : List Bin64) : Except String Bin64 :=
  if data.length < 2 then .error "Need at least 2 data points for variance"
  else do
    let mean ← calculate_meanR data
    let sum_sq_diff := bSum (data.map (fun x => bPowi (bSub x mean) 2))
    .ok (bDiv sum_sq_diff (bOfNat (data.length - 1)))

/-- stats.rs `calculate_std`, rounded binary64 arithmetic. -/
def calculate_stdR (data : List Bin64) : Except String Bin64 := do
  let variance ← calculate_varianceR data
  .ok (bSqrt variance)

/-- stats.rs `calculate_skewness`, rounded binary64 arithmetic: the
`std_dev == 0.0` guard, then the bias-corrected sample formula. -/
def calculate_skewnessR (data : List Bin64) : Except String Bin64 :=
  if data.length < 3 then .error "Need at least 3 data points for skewness"
  else do
    let mean ← calculate_meanR data
    let std_dev ← calculate_stdR data
    if bBeq std_dev ⟨0, 0⟩ then .ok ⟨0, 0⟩
    else
      let sum_cubed_deviations :=
        bSum (data.map (fun x => bPowi (bDiv (bSub x mean) std_dev) 3))
      .ok (bMul
            (bDiv (bOfNat data.length)
              (bMul (bSub (bOfNat data.length) ⟨1, 0⟩)
                (bSub (bOfNat data.length) ⟨2, 0⟩)))
            sum_cubed_deviations)

/-- stats.rs `calculate_kurtosis`, rounded binary64 arithmetic: the
`std_dev == 0.0` guard, then the bias-corrected excess-kurtosis
formula. -/
def calculate_kurtosisR (data : List Bin64) : Except String Bin64 :=
  if data.length < 4 then .error "Need at least 4 data points for kurtosis"
  else do
    let mean ← calculate_meanR data
    let std_dev ← calculate_stdR data
    if bBeq std_dev ⟨0, 0⟩ then .ok ⟨0, 0⟩
    else
      let sum_fourth_deviations :=
        bSum (data.map (fun x => bPowi (bDiv (bSub x mean) std_dev) 4))
      .ok (bSub
            (bMul
              (bDiv (bMul (bOfNat data.length) (bAdd (bOfNat data.length) ⟨1, 0⟩))
                (bMul (bMul (bSub (bOfNat data.length) ⟨1, 0⟩)
                    (bSub (bOfNat data.length) ⟨2, 0⟩))
                  (bSub (bOfNat data.length) ⟨3, 0⟩)))
              sum_fourth_deviations)
            (bDiv (bMul ⟨3, 0⟩ (bPowi (bSub (bOfNat data.length) ⟨1, 0⟩) 2))
              (bMul (bSub (bOfNat data.length) ⟨2, 0⟩)
                (bSub (bOfNat data.length) ⟨3, 0⟩))))

/-- The binary64 value of the literal `0.1`:
`3602879701896397 · 2⁻⁵⁵ = 0.1000000000000000055511151231257827…`. -/
def bPointOne : Bin64 := ⟨3602879701896397, -55⟩

/-- Three equal copies of `0.1`: an all-equal data sequence. -/
def c10RoundedData : List Bin64 := List.replicate 3 bPointOne

set_option maxRecDepth 100000 in
/-- C10 counterexample: on the all-equal sequence `[0.1, 0.1, 0.1]`,
binary64 rounding makes the computed mean (`0.10000000000000002`) differ
from the elements, so the computed sample standard deviation
(`≈ 1.7·10⁻¹⁷`) is not `0.0`, the zero-variance guard does not fire, and
the skewness kernel returns `−2.449489742783179`
(`−5515760546423089 · 2⁻⁵¹`), not `Ok(0.0)`: the claim, quantified over
every all-equal sequence, is false of the program. -/
theorem c10_all_equal_rounding_counterexample :
    (calculate_meanR c10RoundedData).map (fun v => bBeq v bPointOne) =
      .ok false ∧
    (calculate_stdR c10RoundedData).map (fun v => bBeq v ⟨0, 0⟩) =
      .ok false ∧
    (calculate_skewnessR c10RoundedData).map (fun v => bBeq v ⟨0, 0⟩) =
      .ok false ∧
    calculate_skewnessR c10RoundedData = .ok ⟨-5515760546423089, -51⟩ :=
  ⟨rfl, rfl, rfl, rfl⟩

/-- C10 (amended): the zero-variance branch is guarded before the
standardized-deviation sums are computed: whenever the computed sample
standard deviation tests IEEE-equal to `0.0`, the skewness kernel
(length ≥ 3) and the kurtosis kernel (length ≥ 4) return `Ok(0.0)`
without dividing by the zero standard deviation.  The hypothesis holds
for all-equal sequences whose binary64 arithmetic is exact — e.g.
integer-valued constants such as `[5,5,5,5]` — but not for every
all-equal sequence, since rounding can make the computed std nonzero. -/
theorem c10_zero_std_guard (data : List Bin64) (mean std_dev : Bin64)
    (hmean : calculate_meanR data = .ok mean)
    (hstd : calculate_stdR data = .ok std_dev)
    (hzero : bBeq std_dev ⟨0, 0⟩ = true) :
    (3 ≤ data.length → calculate_skewnessR data = .ok ⟨0, 0⟩) ∧
    (4 ≤ data.length → calculate_kurtosisR data = .ok ⟨0, 0⟩) := by
  constructor
  · intro h3
    unfold calculate_skewnessR
    rw [if_neg (by omega)]
    rw [hmean, hstd]
    show (if bBeq std_dev ⟨0, 0⟩ = true then Except.ok (⟨0, 0⟩ : Bin64)
      else Except.ok (bMul
        (bDiv (bOfNat data.length)
          (bMul (bSub (bOfNat data.length) ⟨1, 0⟩)
            (bSub (bOfNat data.length) ⟨2, 0⟩)))
        (bSum (data.map (fun x => bPowi (bDiv (bSub x mean) std_dev) 3))))) =
      Except.ok (⟨0, 0⟩ : Bin64)
    rw [if_pos hzero]
  · intro h4
    unfold calculate_kurtosisR
    rw [if_neg (by omega)]
    rw [hmean, hstd]
    show (if bBeq std_dev ⟨0, 0⟩ = true then Except.ok (⟨0, 0⟩ : Bin64)
      else Except.ok (bSub
        (bMul
          (bDiv (bMul (bOfNat data.length) (bAdd (bOfNat data.length) ⟨1, 0⟩))
            (bMul (bMul (bSub (bOfNat data.length) ⟨1, 0⟩)
                (bSub (bOfNat data.length) ⟨2, 0⟩))
              (bSub (bOfNat data.length) ⟨3, 0⟩)))
          (bSum (data.map (fun x => bPowi (bDiv (bSub x mean) std_dev) 4))))
        (bDiv (bMul ⟨3, 0⟩ (bPowi (bSub (bOfNat data.length) ⟨1, 0⟩) 2))
          (bMul (bSub (bOfNat data.length) ⟨2, 0⟩)
            (bSub (bOfNat data.length) ⟨3, 0⟩))))) =
      Except.ok (⟨0, 0⟩ : Bin64)
    rw [if_pos hzero]

/-- Four equal copies of `5.0`: binary64 arithmetic on them is exact. -/
def c10IntData : List Bin64 := List.replicate 4 ⟨5, 0⟩

/-- C10 witness: the amended theorem applied to `[5.0, 5.0, 5.0, 5.0]`,
whose computed mean is exactly `5.0` and computed std exactly `0.0`. -/
theorem c10_zero_std_guard_witness :
    calculate_skewnessR c10IntData = .ok ⟨0, 0⟩ ∧
    calculate_kurtosisR c10IntData = .ok ⟨0, 0⟩ :=
  ⟨(c10_zero_std_guard c10IntData ⟨5, 0⟩ ⟨0, 0⟩ rfl rfl rfl).1 (by decide),
   (c10_zero_std_guard c10IntData ⟨5, 0⟩ ⟨0, 0⟩ rfl rfl rfl).2 (by decide)⟩
